import Mathlib

/-!
Shallow embedding of the client-secret authentication methods from
`authentication/auth_method_client_secret.go` (single-tenant variant) and
`authentication/auth_method_client_secret_multi_tenant.go` (multi-tenant
variant) of the terraform-provider-azurerm vendored go-azure-helpers code.

External collaborators (Go `context.Context`, the `adal` and hamilton `auth`
libraries, the transport `Sender`) are modelled as opaque values; the external
library functions the two files call are passed in as explicit parameters so
that the embedded functions stay pure and the theorems quantify over every
possible behaviour of those collaborators.  Go `error` values are modelled as
`String` messages, fallible calls as `Except String`, nilable pointers as
`Option`.
-/

set_option maxRecDepth 20000

/-- Model of a Go `context.Context` value.  `background` is the context
returned by `context.Background()`; other contexts are opaque. -/
inductive GoContext
  | background
  | user (id : Nat)
deriving DecidableEq, Repr

/-- Opaque model of an `autorest.Sender` (HTTP transport). -/
structure Sender where
  id : Nat
deriving DecidableEq, Repr

/-- Opaque model of an `adal.OAuthConfig` (single-tenant OAuth sub-config). -/
structure AdalOAuthConfig where
  id : Nat
deriving DecidableEq, Repr

/-- Opaque model of an `adal.MultiTenantOAuthConfig`. -/
structure AdalMultiTenantOAuthConfig where
  id : Nat
deriving DecidableEq, Repr

/-- The fields of the package type `OAuthConfig` that the two source files read:
`oauth.OAuth` and `oauth.MultiTenantOauth`, both nilable pointers. -/
structure OAuthConfig where
  OAuth : Option AdalOAuthConfig
  MultiTenantOauth : Option AdalMultiTenantOAuthConfig
deriving DecidableEq, Repr

/-- Opaque model of an `autorest.Authorizer` result value. -/
structure Authorizer where
  id : Nat
deriving DecidableEq, Repr

/-- Model of an `adal.ServicePrincipalToken`: opaque identity plus the sender
bound by `SetSender`. -/
structure ServicePrincipalToken where
  id : Nat
  sender : Option Sender
deriving DecidableEq, Repr

/-- Method `ServicePrincipalToken.SetSender`: binds a transport sender to the token. -/
def ServicePrincipalToken.setSender (t : ServicePrincipalToken) (s : Sender) :
    ServicePrincipalToken :=
  { t with sender := some s }

/-- Model of an `adal.MultiTenantServicePrincipalToken`: a primary token plus
auxiliary tokens. -/
structure MultiTenantServicePrincipalToken where
  PrimaryToken : ServicePrincipalToken
  AuxiliaryTokens : List ServicePrincipalToken
deriving DecidableEq, Repr

/-- Opaque model of a hamilton `environments.Environment` descriptor. -/
structure Environment where
  name : String
deriving DecidableEq, Repr

/-- Model of hamilton `auth.TokenVersion`; the source always uses
`auth.TokenVersion2`. -/
inductive TokenVersion
  | v1
  | v2
deriving DecidableEq, Repr

/-- Model of the hamilton `auth` credential-type argument; the source always
passes `auth.ClientCredentialsSecretType`. -/
inductive AuthType
  | clientCredentialsSecretType
deriving DecidableEq, Repr

/-- Opaque model of a hamilton `auth.Authorizer` (the token source returned by
`conf.TokenSource`, which may or may not implement `autorest.Authorizer`). -/
structure HamiltonAuthorizer where
  id : Nat
deriving DecidableEq, Repr

/-- Model of hamilton `auth.ClientCredentialsConfig` (the fields the source
populates). -/
structure ClientCredentialsConfig where
  Environment : Environment
  TenantID : String
  ClientID : String
  ClientSecret : String
  Scopes : List String
  TokenVersion : TokenVersion
deriving DecidableEq, Repr

/-- The external hamilton-library operations called by
`getAuthorizationTokenV2`: `environments.EnvironmentFromString`,
`conf.TokenSource`, and the Go type assertion
`authorizer.(autorest.Authorizer)` (`none` models a failed assertion). -/
structure HamiltonExt where
  environmentFromString : String → Except String Environment
  tokenSource : ClientCredentialsConfig → GoContext → AuthType → HamiltonAuthorizer
  asAutorestAuthorizer : HamiltonAuthorizer → Option Authorizer

/-- The external adal/autorest operations called by the legacy
`getAuthorizationToken` paths. -/
structure AdalExt where
  newServicePrincipalToken :
    AdalOAuthConfig → String → String → String → Except String ServicePrincipalToken
  newMultiTenantServicePrincipalToken :
    AdalMultiTenantOAuthConfig → String → String → String →
      Except String MultiTenantServicePrincipalToken
  newBearerAuthorizer : ServicePrincipalToken → Authorizer
  newMultiTenantServicePrincipalTokenAuthorizer :
    MultiTenantServicePrincipalToken → Authorizer

/-- The fields of the package type `Builder` that the two source files consume. -/
structure Builder where
  Context : Option GoContext
  ClientID : String
  ClientSecret : String
  Environment : String
  SubscriptionID : String
  TenantID : String
  TenantOnly : Bool
  AuxiliaryTenantIDs : List String
  SupportsClientSecretAuth : Bool
  SupportsAuxiliaryTenants : Bool
deriving DecidableEq, Repr

/-- Struct `servicePrincipalClientSecretAuth`, the (single-tenant variant).  The Go
`ctx context.Context` field is nilable, hence `Option GoContext`. -/
structure servicePrincipalClientSecretAuth where
  ctx : Option GoContext
  clientId : String
  clientSecret : String
  environment : String
  subscriptionId : String
  tenantId : String
  tenantOnly : Bool
deriving DecidableEq, Repr

/-- Struct `servicePrincipalClientSecretMultiTenantAuth`, the (multi-tenant
variant). -/
structure servicePrincipalClientSecretMultiTenantAuth where
  ctx : Option GoContext
  clientId : String
  clientSecret : String
  environment : String
  subscriptionId : String
  tenantId : String
  tenantOnly : Bool
  auxiliaryTenantIDs : List String
deriving DecidableEq, Repr

/-- Go `strings.TrimRight s cutset`: removes all trailing characters of `s`
that occur in `cutset`. -/
def goTrimRight (s : String) (cutset : String) : String :=
  String.mk ((s.data.reverse.dropWhile (fun c => cutset.data.contains c)).reverse)

/-- Go `multierror.Append err e`: appends one error to the accumulated list
(a nil `*multierror.Error` is the empty list). -/
def multierrorAppend (err : List String) (e : String) : List String :=
  err ++ [e]

/-- Go `err.ErrorOrNil()`: `none` when no error was accumulated, otherwise the
accumulated list. -/
def errorOrNil (err : List String) : Option (List String) :=
  if err = [] then none else some err

/-- Message produced by `fmt.Errorf(fmtErrorMessage, field)` with the format
string of the single-tenant variant. -/
def fmtErrorMessageSingle (field : String) : String :=
  "A " ++ field ++
    " must be configured when authenticating as a Service Principal using a Client Secret."

/-- Message produced by `fmt.Errorf(fmtErrorMessage, field)` with the format
string of the multi-tenant variant. -/
def fmtErrorMessageMulti (field : String) : String :=
  field ++
    " must be configured when authenticating as a Service Principal using a Multi Tenant Client Secret."

/-- Function `servicePrincipalClientSecretAuth.build` (the receiver is unused in the
source). -/
def servicePrincipalClientSecretAuth.build (b : Builder) :
    Except String servicePrincipalClientSecretAuth :=
  .ok
    { ctx := b.Context
      clientId := b.ClientID
      clientSecret := b.ClientSecret
      environment := b.Environment
      subscriptionId := b.SubscriptionID
      tenantId := b.TenantID
      tenantOnly := b.TenantOnly }

/-- Function `servicePrincipalClientSecretAuth.isApplicable`. -/
def servicePrincipalClientSecretAuth.isApplicable (b : Builder) : Bool :=
  b.SupportsClientSecretAuth && b.ClientSecret != ""

/-- Function `servicePrincipalClientSecretAuth.name`. -/
def servicePrincipalClientSecretAuth.name : String :=
  "Service Principal / Client Secret"

/-- Function `servicePrincipalClientSecretAuth.getAuthorizationToken` (legacy path);
`ext` carries the adal/autorest library calls. -/
def servicePrincipalClientSecretAuth.getAuthorizationToken (ext : AdalExt)
    (a : servicePrincipalClientSecretAuth) (sender : Sender)
    (oauth : OAuthConfig) (endpoint : String) : Except String Authorizer :=
  match oauth.OAuth with
  | none =>
      .error "getting Authorization Token for client secret auth: an OAuth token wasn\x27t configured correctly; please file a bug with more details"
  | some oauthCfg =>
      match ext.newServicePrincipalToken oauthCfg a.clientId a.clientSecret endpoint with
      | .error e => .error e
      | .ok spt => .ok (ext.newBearerAuthorizer (spt.setSender sender))

/-- Function `servicePrincipalClientSecretAuth.getAuthorizationTokenV2`; the sender and
oauth-config arguments are ignored by the source (`_` parameters). -/
def servicePrincipalClientSecretAuth.getAuthorizationTokenV2 (ext : HamiltonExt)
    (a : servicePrincipalClientSecretAuth) (_sender : Sender)
    (_oauth : OAuthConfig) (endpoint : String) : Except String Authorizer :=
  match ext.environmentFromString a.environment with
  | .error e => .error ("environment config error: " ++ e)
  | .ok environment =>
      let conf : ClientCredentialsConfig :=
        { Environment := environment
          TenantID := a.tenantId
          ClientID := a.clientId
          ClientSecret := a.clientSecret
          Scopes := [goTrimRight endpoint "/" ++ "/.default"]
          TokenVersion := .v2 }
      let ctx := a.ctx.getD .background
      let authorizer := ext.tokenSource conf ctx .clientCredentialsSecretType
      match ext.asAutorestAuthorizer authorizer with
      | some authTyped => .ok authTyped
      | none => .error "returned auth.Authorizer does not implement autorest.Authorizer"

/-- Function `servicePrincipalClientSecretAuth.validate`. -/
def servicePrincipalClientSecretAuth.validate
    (a : servicePrincipalClientSecretAuth) : Option (List String) :=
  let err : List String := []
  let err := if !a.tenantOnly && a.subscriptionId == "" then
    multierrorAppend err (fmtErrorMessageSingle "Subscription ID") else err
  let err := if a.clientId == "" then
    multierrorAppend err (fmtErrorMessageSingle "Client ID") else err
  let err := if a.clientSecret == "" then
    multierrorAppend err (fmtErrorMessageSingle "Client Secret") else err
  let err := if a.tenantId == "" then
    multierrorAppend err (fmtErrorMessageSingle "Tenant ID") else err
  errorOrNil err

/-- Function `servicePrincipalClientSecretMultiTenantAuth.build`. -/
def servicePrincipalClientSecretMultiTenantAuth.build (b : Builder) :
    Except String servicePrincipalClientSecretMultiTenantAuth :=
  .ok
    { ctx := b.Context
      clientId := b.ClientID
      clientSecret := b.ClientSecret
      environment := b.Environment
      subscriptionId := b.SubscriptionID
      tenantId := b.TenantID
      tenantOnly := b.TenantOnly
      auxiliaryTenantIDs := b.AuxiliaryTenantIDs }

/-- Function `servicePrincipalClientSecretMultiTenantAuth.isApplicable`. -/
def servicePrincipalClientSecretMultiTenantAuth.isApplicable (b : Builder) : Bool :=
  b.SupportsClientSecretAuth && b.ClientSecret != "" &&
    b.SupportsAuxiliaryTenants && decide (b.AuxiliaryTenantIDs.length > 0)

/-- Function `servicePrincipalClientSecretMultiTenantAuth.name`. -/
def servicePrincipalClientSecretMultiTenantAuth.name : String :=
  "Multi Tenant Service Principal / Client Secret"

/-- Function `servicePrincipalClientSecretMultiTenantAuth.getAuthorizationToken`
(legacy path): checks the multi-tenant sub-config, builds the multi-tenant
token, binds the sender to the primary and every auxiliary token, and wraps
the token in an authorizer. -/
def servicePrincipalClientSecretMultiTenantAuth.getAuthorizationToken
    (ext : AdalExt) (a : servicePrincipalClientSecretMultiTenantAuth)
    (sender : Sender) (oauth : OAuthConfig) (endpoint : String) :
    Except String Authorizer :=
  match oauth.MultiTenantOauth with
  | none =>
      .error "getting Authorization Token for client cert: an MultiTenantOauth token wasn\x27t configured correctly; please file a bug with more details"
  | some mt =>
      match ext.newMultiTenantServicePrincipalToken mt a.clientId a.clientSecret endpoint with
      | .error e => .error e
      | .ok spt =>
          let spt :=
            { spt with
                PrimaryToken := spt.PrimaryToken.setSender sender
                AuxiliaryTokens := spt.AuxiliaryTokens.map (fun t => t.setSender sender) }
          .ok (ext.newMultiTenantServicePrincipalTokenAuthorizer spt)

/-- Function `servicePrincipalClientSecretMultiTenantAuth.getAuthorizationTokenV2`;
textually identical to the single-tenant version in the source. -/
def servicePrincipalClientSecretMultiTenantAuth.getAuthorizationTokenV2
    (ext : HamiltonExt) (a : servicePrincipalClientSecretMultiTenantAuth)
    (_sender : Sender) (_oauth : OAuthConfig) (endpoint : String) :
    Except String Authorizer :=
  match ext.environmentFromString a.environment with
  | .error e => .error ("environment config error: " ++ e)
  | .ok environment =>
      let conf : ClientCredentialsConfig :=
        { Environment := environment
          TenantID := a.tenantId
          ClientID := a.clientId
          ClientSecret := a.clientSecret
          Scopes := [goTrimRight endpoint "/" ++ "/.default"]
          TokenVersion := .v2 }
      let ctx := a.ctx.getD .background
      let authorizer := ext.tokenSource conf ctx .clientCredentialsSecretType
      match ext.asAutorestAuthorizer authorizer with
      | some authTyped => .ok authTyped
      | none => .error "returned auth.Authorizer does not implement autorest.Authorizer"

/-- Function `servicePrincipalClientSecretMultiTenantAuth.validate`. -/
def servicePrincipalClientSecretMultiTenantAuth.validate
    (a : servicePrincipalClientSecretMultiTenantAuth) : Option (List String) :=
  let err : List String := []
  let err := if !a.tenantOnly && a.subscriptionId == "" then
    multierrorAppend err (fmtErrorMessageMulti "Subscription ID") else err
  let err := if a.clientId == "" then
    multierrorAppend err (fmtErrorMessageMulti "Client ID") else err
  let err := if a.clientSecret == "" then
    multierrorAppend err (fmtErrorMessageMulti "Client Secret") else err
  let err := if a.tenantId == "" then
    multierrorAppend err (fmtErrorMessageMulti "Tenant ID") else err
  let err := if a.auxiliaryTenantIDs.length = 0 then
    multierrorAppend err (fmtErrorMessageMulti "Auxiliary Tenant IDs") else err
  errorOrNil err

/-- The list of all missing-field violations the single-tenant `validate`
reports, written as one concatenation of per-field checks (spec reading:
every violation is collected, none short-circuits the others). -/
def expectedViolationsSingle (a : servicePrincipalClientSecretAuth) : List String :=
  (if !a.tenantOnly && a.subscriptionId == "" then [fmtErrorMessageSingle "Subscription ID"] else []) ++
  (if a.clientId == "" then [fmtErrorMessageSingle "Client ID"] else []) ++
  (if a.clientSecret == "" then [fmtErrorMessageSingle "Client Secret"] else []) ++
  (if a.tenantId == "" then [fmtErrorMessageSingle "Tenant ID"] else [])

/-- The list of all missing-field violations the multi-tenant `validate`
reports. -/
def expectedViolationsMulti (a : servicePrincipalClientSecretMultiTenantAuth) : List String :=
  (if !a.tenantOnly && a.subscriptionId == "" then [fmtErrorMessageMulti "Subscription ID"] else []) ++
  (if a.clientId == "" then [fmtErrorMessageMulti "Client ID"] else []) ++
  (if a.clientSecret == "" then [fmtErrorMessageMulti "Client Secret"] else []) ++
  (if a.tenantId == "" then [fmtErrorMessageMulti "Tenant ID"] else []) ++
  (if a.auxiliaryTenantIDs.length = 0 then [fmtErrorMessageMulti "Auxiliary Tenant IDs"] else [])

lemma validate_single_eq (a : servicePrincipalClientSecretAuth) :
    a.validate = errorOrNil (expectedViolationsSingle a) := by
  unfold servicePrincipalClientSecretAuth.validate expectedViolationsSingle multierrorAppend
  split_ifs <;> simp

lemma validate_multi_eq (a : servicePrincipalClientSecretMultiTenantAuth) :
    a.validate = errorOrNil (expectedViolationsMulti a) := by
  unfold servicePrincipalClientSecretMultiTenantAuth.validate expectedViolationsMulti
    multierrorAppend
  split_ifs <;> simp

lemma errorOrNil_eq_none (e : List String) : errorOrNil e = none ↔ e = [] := by
  unfold errorOrNil
  split <;> simp_all

lemma errorOrNil_eq_some (e errs : List String) (h : errorOrNil e = some errs) :
    errs = e := by
  unfold errorOrNil at h
  split at h <;> simp_all

/-- C1: the single-tenant `isApplicable b` is true iff
`b.SupportsClientSecretAuth` holds and `b.ClientSecret` is non-empty, and its
value never depends on `b.SupportsAuxiliaryTenants` or
`b.AuxiliaryTenantIDs`. -/
theorem C1_single_isApplicable_iff :
    (∀ b : Builder,
      servicePrincipalClientSecretAuth.isApplicable b = true ↔
        b.SupportsClientSecretAuth = true ∧ b.ClientSecret ≠ "") ∧
    (∀ (b : Builder) (x : Bool) (l : List String),
      servicePrincipalClientSecretAuth.isApplicable
          { b with SupportsAuxiliaryTenants := x, AuxiliaryTenantIDs := l } =
        servicePrincipalClientSecretAuth.isApplicable b) := by
  constructor
  · intro b
    simp [servicePrincipalClientSecretAuth.isApplicable]
  · intro b x l
    rfl

/-- C2: the multi-tenant `isApplicable b` is true iff client-secret support is
on, the secret is non-empty, auxiliary-tenant support is on, and the
auxiliary-tenant list is non-empty. -/
theorem C2_multi_isApplicable_iff (b : Builder) :
    servicePrincipalClientSecretMultiTenantAuth.isApplicable b = true ↔
      b.SupportsClientSecretAuth = true ∧ b.ClientSecret ≠ "" ∧
        b.SupportsAuxiliaryTenants = true ∧ b.AuxiliaryTenantIDs ≠ [] := by
  simp [servicePrincipalClientSecretMultiTenantAuth.isApplicable,
    List.length_pos, and_assoc]

/-- C5: the multi-tenant `validate` fails (returns a non-nil error) whenever
the auxiliary-tenant list is empty, whatever the other fields hold. -/
theorem C5_multi_validate_empty_aux_fails
    (a : servicePrincipalClientSecretMultiTenantAuth)
    (h : a.auxiliaryTenantIDs = []) :
    a.validate ≠ none := by
  intro hnone
  rw [validate_multi_eq, errorOrNil_eq_none] at hnone
  unfold expectedViolationsMulti at hnone
  rw [h] at hnone
  simp at hnone

/-- C5 witness: a concrete multi-tenant instance with every other field valid
but an empty auxiliary-tenant list fails validation. -/
theorem C5_witness :
    servicePrincipalClientSecretMultiTenantAuth.validate
      ⟨none, "cid", "sec", "public", "sub", "tid", false, []⟩ ≠ none :=
  C5_multi_validate_empty_aux_fails ⟨none, "cid", "sec", "public", "sub", "tid", false, []⟩ rfl

/-- C9: `build` never fails and copies each builder field unchanged into the
returned instance, for both variants. -/
theorem C9_build_copies_fields :
    (∀ b : Builder, ∃ m, servicePrincipalClientSecretAuth.build b = .ok m ∧
      m.ctx = b.Context ∧ m.clientId = b.ClientID ∧ m.clientSecret = b.ClientSecret ∧
      m.environment = b.Environment ∧ m.subscriptionId = b.SubscriptionID ∧
      m.tenantId = b.TenantID ∧ m.tenantOnly = b.TenantOnly) ∧
    (∀ b : Builder, ∃ m, servicePrincipalClientSecretMultiTenantAuth.build b = .ok m ∧
      m.ctx = b.Context ∧ m.clientId = b.ClientID ∧ m.clientSecret = b.ClientSecret ∧
      m.environment = b.Environment ∧ m.subscriptionId = b.SubscriptionID ∧
      m.tenantId = b.TenantID ∧ m.tenantOnly = b.TenantOnly ∧
      m.auxiliaryTenantIDs = b.AuxiliaryTenantIDs) := by
  constructor
  · intro b
    exact ⟨_, rfl, rfl, rfl, rfl, rfl, rfl, rfl, rfl⟩
  · intro b
    exact ⟨_, rfl, rfl, rfl, rfl, rfl, rfl, rfl, rfl, rfl⟩

lemma envConfigErrorPrefixes (e : String) :
    "environment config error".data <:+: ("environment config error: " ++ e).data :=
  ⟨[], (": " ++ e).data, by rfl⟩

/-- C6: the multi-tenant legacy `getAuthorizationToken` with a missing
multi-tenant OAuth sub-config returns no authorizer and the fixed
configuration-error message (the one saying the MultiTenantOauth token was
not configured correctly),
whatever the adal library would do (no token construction is attempted). -/
theorem C6_multi_legacy_missing_oauth (ext : AdalExt)
    (a : servicePrincipalClientSecretMultiTenantAuth) (sender : Sender)
    (oauth : OAuthConfig) (endpoint : String)
    (h : oauth.MultiTenantOauth = none) :
    a.getAuthorizationToken ext sender oauth endpoint =
      .error "getting Authorization Token for client cert: an MultiTenantOauth token wasn\x27t configured correctly; please file a bug with more details" ∧
    "wasn\x27t configured correctly".data <:+:
      "getting Authorization Token for client cert: an MultiTenantOauth token wasn\x27t configured correctly; please file a bug with more details".data := by
  constructor
  · unfold servicePrincipalClientSecretMultiTenantAuth.getAuthorizationToken
    rw [h]
  · exact ⟨"getting Authorization Token for client cert: an MultiTenantOauth token ".data,
      "; please file a bug with more details".data, by rfl⟩

/-- Fixture: a concrete adal external-library behaviour used by witnesses. -/
def adalExtW : AdalExt where
  newServicePrincipalToken := fun _ _ _ _ => .ok ⟨1, none⟩
  newMultiTenantServicePrincipalToken := fun _ _ _ _ => .ok ⟨⟨1, none⟩, []⟩
  newBearerAuthorizer := fun t => ⟨t.id⟩
  newMultiTenantServicePrincipalTokenAuthorizer := fun t => ⟨t.PrimaryToken.id⟩

/-- C6 witness: concrete instance, sender, endpoint, and an OAuth config whose
multi-tenant sub-config is absent. -/
theorem C6_witness :
    servicePrincipalClientSecretMultiTenantAuth.getAuthorizationToken adalExtW
        ⟨none, "cid", "sec", "public", "sub", "tid", false, ["aux"]⟩ ⟨0⟩
        ⟨some ⟨5⟩, none⟩ "https://management.azure.com/" =
      .error "getting Authorization Token for client cert: an MultiTenantOauth token wasn\x27t configured correctly; please file a bug with more details" ∧
    "wasn\x27t configured correctly".data <:+:
      "getting Authorization Token for client cert: an MultiTenantOauth token wasn\x27t configured correctly; please file a bug with more details".data :=
  C6_multi_legacy_missing_oauth adalExtW
    ⟨none, "cid", "sec", "public", "sub", "tid", false, ["aux"]⟩ ⟨0⟩
    ⟨some ⟨5⟩, none⟩ "https://management.azure.com/" rfl

/-- C7: for both variants, whenever the environment resolver rejects the
environment string of the instance, `getAuthorizationTokenV2` returns no authorizer
and an error message containing "environment config error", for every
endpoint. -/
theorem C7_v2_unknown_environment :
    (∀ (ext : HamiltonExt) (a : servicePrincipalClientSecretAuth) (s : Sender)
        (o : OAuthConfig) (endpoint e : String),
      ext.environmentFromString a.environment = .error e →
      ∃ msg, a.getAuthorizationTokenV2 ext s o endpoint = .error msg ∧
        "environment config error".data <:+: msg.data) ∧
    (∀ (ext : HamiltonExt) (a : servicePrincipalClientSecretMultiTenantAuth)
        (s : Sender) (o : OAuthConfig) (endpoint e : String),
      ext.environmentFromString a.environment = .error e →
      ∃ msg, a.getAuthorizationTokenV2 ext s o endpoint = .error msg ∧
        "environment config error".data <:+: msg.data) := by
  constructor
  · intro ext a s o endpoint e h
    refine ⟨"environment config error: " ++ e, ?_, envConfigErrorPrefixes e⟩
    unfold servicePrincipalClientSecretAuth.getAuthorizationTokenV2
    rw [h]
  · intro ext a s o endpoint e h
    refine ⟨"environment config error: " ++ e, ?_, envConfigErrorPrefixes e⟩
    unfold servicePrincipalClientSecretMultiTenantAuth.getAuthorizationTokenV2
    rw [h]

/-- Fixture: a concrete hamilton external-library behaviour used by witnesses;
it rejects the environment string "bad" and accepts any other. -/
def hamiltonExtW : HamiltonExt where
  environmentFromString := fun s =>
    if s = "bad" then .error "unsupported environment" else .ok ⟨s⟩
  tokenSource := fun _ _ _ => ⟨1⟩
  asAutorestAuthorizer := fun h => some ⟨h.id⟩

/-- C7 witness: both variants at a concrete instance whose environment string
the resolver rejects. -/
theorem C7_witness :
    (∃ msg, servicePrincipalClientSecretAuth.getAuthorizationTokenV2 hamiltonExtW
        ⟨none, "cid", "sec", "bad", "sub", "tid", false⟩ ⟨0⟩ ⟨none, none⟩
        "https://management.azure.com/" = .error msg ∧
      "environment config error".data <:+: msg.data) ∧
    (∃ msg, servicePrincipalClientSecretMultiTenantAuth.getAuthorizationTokenV2 hamiltonExtW
        ⟨none, "cid", "sec", "bad", "sub", "tid", false, ["aux"]⟩ ⟨0⟩ ⟨none, none⟩
        "https://management.azure.com/" = .error msg ∧
      "environment config error".data <:+: msg.data) :=
  ⟨C7_v2_unknown_environment.1 hamiltonExtW
      ⟨none, "cid", "sec", "bad", "sub", "tid", false⟩ ⟨0⟩ ⟨none, none⟩
      "https://management.azure.com/" "unsupported environment" rfl,
    C7_v2_unknown_environment.2 hamiltonExtW
      ⟨none, "cid", "sec", "bad", "sub", "tid", false, ["aux"]⟩ ⟨0⟩ ⟨none, none⟩
      "https://management.azure.com/" "unsupported environment" rfl⟩

/-- C10: the two `getAuthorizationTokenV2` implementations are extensionally
equal: two instances agreeing on ctx, clientId, clientSecret, environment and
tenantId produce the same result for every endpoint, sender, oauth config and
external-library behaviour; in particular the multi-tenant path never reads
`auxiliaryTenantIDs`, `subscriptionId` or `tenantOnly`. -/
theorem C10_v2_extensionally_equal (ext : HamiltonExt)
    (a : servicePrincipalClientSecretAuth)
    (m : servicePrincipalClientSecretMultiTenantAuth)
    (s1 s2 : Sender) (o1 o2 : OAuthConfig) (endpoint : String)
    (h1 : a.ctx = m.ctx) (h2 : a.clientId = m.clientId)
    (h3 : a.clientSecret = m.clientSecret) (h4 : a.environment = m.environment)
    (h5 : a.tenantId = m.tenantId) :
    a.getAuthorizationTokenV2 ext s1 o1 endpoint =
      m.getAuthorizationTokenV2 ext s2 o2 endpoint := by
  unfold servicePrincipalClientSecretAuth.getAuthorizationTokenV2
    servicePrincipalClientSecretMultiTenantAuth.getAuthorizationTokenV2
  rw [h1, h2, h3, h4, h5]

/-- C10 witness: two concrete instances that agree on the five shared fields
but differ on subscriptionId, tenantOnly and auxiliaryTenantIDs give the same
v2 result. -/
theorem C10_witness :
    servicePrincipalClientSecretAuth.getAuthorizationTokenV2 hamiltonExtW
        ⟨none, "cid", "sec", "public", "subA", "tid", false⟩ ⟨0⟩ ⟨none, none⟩
        "https://management.azure.com/" =
      servicePrincipalClientSecretMultiTenantAuth.getAuthorizationTokenV2 hamiltonExtW
        ⟨none, "cid", "sec", "public", "subB", "tid", true, ["aux1", "aux2"]⟩ ⟨7⟩
        ⟨some ⟨3⟩, some ⟨4⟩⟩ "https://management.azure.com/" :=
  C10_v2_extensionally_equal hamiltonExtW
    ⟨none, "cid", "sec", "public", "subA", "tid", false⟩
    ⟨none, "cid", "sec", "public", "subB", "tid", true, ["aux1", "aux2"]⟩
    ⟨0⟩ ⟨7⟩ ⟨none, none⟩ ⟨some ⟨3⟩, some ⟨4⟩⟩ "https://management.azure.com/"
    rfl rfl rfl rfl rfl

/-- Predicate stating that `errs` mentions field name `f`: some collected message contains `f` as a
substring. -/
def mentionsField (errs : List String) (f : String) : Prop :=
  ∃ m ∈ errs, f.data <:+: m.data

lemma mentions_single_msg (f : String) : f.data <:+: (fmtErrorMessageSingle f).data :=
  ⟨"A ".data,
    " must be configured when authenticating as a Service Principal using a Client Secret.".data,
    by rfl⟩

lemma mentions_multi_msg (f : String) : f.data <:+: (fmtErrorMessageMulti f).data :=
  ⟨[],
    " must be configured when authenticating as a Service Principal using a Multi Tenant Client Secret.".data,
    by rfl⟩

/-- C3: the single-tenant `validate` (i) on an instance with empty
subscriptionId, clientId, clientSecret and tenantId and tenantOnly off returns
one aggregated error mentioning all four field names, (ii) reports every
missing field whenever it returns an error (no short-circuiting), and (iii)
returns nil exactly when no required field is missing. -/
theorem C3_validate_single_aggregates :
    (∀ a : servicePrincipalClientSecretAuth,
      a.clientId = "" → a.clientSecret = "" → a.tenantId = "" →
      a.tenantOnly = false → a.subscriptionId = "" →
      ∃ errs, a.validate = some errs ∧
        mentionsField errs "Subscription ID" ∧ mentionsField errs "Client ID" ∧
        mentionsField errs "Client Secret" ∧ mentionsField errs "Tenant ID") ∧
    (∀ (a : servicePrincipalClientSecretAuth) (errs : List String),
      a.validate = some errs →
      ((a.tenantOnly = false ∧ a.subscriptionId = "") → mentionsField errs "Subscription ID") ∧
      (a.clientId = "" → mentionsField errs "Client ID") ∧
      (a.clientSecret = "" → mentionsField errs "Client Secret") ∧
      (a.tenantId = "" → mentionsField errs "Tenant ID")) ∧
    (∀ a : servicePrincipalClientSecretAuth,
      a.validate = none ↔
        (a.tenantOnly = false → a.subscriptionId ≠ "") ∧ a.clientId ≠ "" ∧
          a.clientSecret ≠ "" ∧ a.tenantId ≠ "") := by
  refine ⟨?_, ?_, ?_⟩
  · intro a h1 h2 h3 h4 h5
    refine ⟨[fmtErrorMessageSingle "Subscription ID", fmtErrorMessageSingle "Client ID",
      fmtErrorMessageSingle "Client Secret", fmtErrorMessageSingle "Tenant ID"],
      ?_, ⟨_, by simp, mentions_single_msg _⟩, ⟨_, by simp, mentions_single_msg _⟩,
      ⟨_, by simp, mentions_single_msg _⟩, ⟨_, by simp, mentions_single_msg _⟩⟩
    rw [validate_single_eq]
    unfold expectedViolationsSingle
    rw [h1, h2, h3, h4, h5]
    rfl
  · intro a errs hv
    rw [validate_single_eq] at hv
    have he := errorOrNil_eq_some _ _ hv
    subst he
    refine ⟨?_, ?_, ?_, ?_⟩
    · rintro ⟨ht, hs⟩
      refine ⟨fmtErrorMessageSingle "Subscription ID", ?_, mentions_single_msg _⟩
      unfold expectedViolationsSingle
      simp [ht, hs]
    · intro hc
      refine ⟨fmtErrorMessageSingle "Client ID", ?_, mentions_single_msg _⟩
      unfold expectedViolationsSingle
      simp [hc]
    · intro hc
      refine ⟨fmtErrorMessageSingle "Client Secret", ?_, mentions_single_msg _⟩
      unfold expectedViolationsSingle
      simp [hc]
    · intro hc
      refine ⟨fmtErrorMessageSingle "Tenant ID", ?_, mentions_single_msg _⟩
      unfold expectedViolationsSingle
      simp [hc]
  · intro a
    rw [validate_single_eq, errorOrNil_eq_none]
    unfold expectedViolationsSingle
    split_ifs <;> simp_all

/-- C3 witness: a concrete instance with all four required fields missing and
tenantOnly off yields an aggregated error mentioning all four field names. -/
theorem C3_witness :
    ∃ errs, servicePrincipalClientSecretAuth.validate
        ⟨none, "", "", "public", "", "", false⟩ = some errs ∧
      mentionsField errs "Subscription ID" ∧ mentionsField errs "Client ID" ∧
      mentionsField errs "Client Secret" ∧ mentionsField errs "Tenant ID" :=
  C3_validate_single_aggregates.1 ⟨none, "", "", "public", "", "", false⟩
    rfl rfl rfl rfl rfl

lemma mem_expected_single_tenantOnly (a : servicePrincipalClientSecretAuth)
    (h : a.tenantOnly = true) :
    ∀ m ∈ expectedViolationsSingle a,
      m ∈ [fmtErrorMessageSingle "Client ID", fmtErrorMessageSingle "Client Secret",
        fmtErrorMessageSingle "Tenant ID"] := by
  intro m hm
  unfold expectedViolationsSingle at hm
  rw [h] at hm
  simp only [Bool.not_true, Bool.false_and, if_neg, List.nil_append,
    Bool.false_eq_true, ite_false, List.mem_append] at hm
  rcases hm with (hm | hm) | hm <;> split at hm <;> simp_all

lemma mem_expected_multi_tenantOnly (a : servicePrincipalClientSecretMultiTenantAuth)
    (h : a.tenantOnly = true) :
    ∀ m ∈ expectedViolationsMulti a,
      m ∈ [fmtErrorMessageMulti "Client ID", fmtErrorMessageMulti "Client Secret",
        fmtErrorMessageMulti "Tenant ID", fmtErrorMessageMulti "Auxiliary Tenant IDs"] := by
  intro m hm
  unfold expectedViolationsMulti at hm
  rw [h] at hm
  simp only [Bool.not_true, Bool.false_and, Bool.false_eq_true, ite_false,
    List.nil_append, List.mem_append] at hm
  rcases hm with ((hm | hm) | hm) | hm <;> split at hm <;> simp_all

/-- C4: with tenantOnly on, for both variants `validate` never reports a
Subscription-ID violation: no message of a returned error contains the text
"Subscription ID". -/
theorem C4_tenantOnly_no_subscription_violation :
    (∀ a : servicePrincipalClientSecretAuth, a.tenantOnly = true →
      ∀ errs, a.validate = some errs → ∀ m ∈ errs,
        ¬ "Subscription ID".data <:+: m.data) ∧
    (∀ a : servicePrincipalClientSecretMultiTenantAuth, a.tenantOnly = true →
      ∀ errs, a.validate = some errs → ∀ m ∈ errs,
        ¬ "Subscription ID".data <:+: m.data) := by
  constructor
  · intro a h errs hv m hm
    rw [validate_single_eq] at hv
    have he := errorOrNil_eq_some _ _ hv
    subst he
    have h3 := mem_expected_single_tenantOnly a h m hm
    rcases (by simpa using h3 : _ ∨ _ ∨ _) with rfl | rfl | rfl <;> decide
  · intro a h errs hv m hm
    rw [validate_multi_eq] at hv
    have he := errorOrNil_eq_some _ _ hv
    subst he
    have h3 := mem_expected_multi_tenantOnly a h m hm
    rcases (by simpa using h3 : _ ∨ _ ∨ _ ∨ _) with rfl | rfl | rfl | rfl <;> decide

/-- C4 witness: a message actually produced by `validate` with tenantOnly on
and every other required field missing does not contain "Subscription ID". -/
theorem C4_witness :
    ¬ "Subscription ID".data <:+: (fmtErrorMessageSingle "Client ID").data :=
  C4_tenantOnly_no_subscription_violation.1 ⟨none, "", "", "public", "", "", true⟩ rfl
    [fmtErrorMessageSingle "Client ID", fmtErrorMessageSingle "Client Secret",
      fmtErrorMessageSingle "Tenant ID"] (by rfl)
    (fmtErrorMessageSingle "Client ID") (by decide)

/-- Spec-side reading of the scope construction: the endpoint with its
trailing slash characters stripped, suffixed with "/.default".  Declared
separately from `goTrimRight` (the source function `strings.TrimRight`) so the two
can be compared. -/
def specScope (endpoint : String) : String :=
  String.mk ((endpoint.data.reverse.dropWhile (fun c => c == '/')).reverse) ++ "/.default"

lemma goTrimRight_slash (s : String) :
    goTrimRight s "/" ++ "/.default" = specScope s := by
  unfold goTrimRight specScope
  have hp : (fun c => ("/" : String).data.contains c) = (fun c => c == '/') := by
    funext c
    cases h : c == '/' <;> simp_all [List.contains]
  rw [hp]

/-- The client-credentials configuration `getAuthorizationTokenV2` builds
(both variants populate the same fields). -/
def v2Conf (env : Environment) (tenantId clientId clientSecret endpoint : String) :
    ClientCredentialsConfig where
  Environment := env
  TenantID := tenantId
  ClientID := clientId
  ClientSecret := clientSecret
  Scopes := [goTrimRight endpoint "/" ++ "/.default"]
  TokenVersion := .v2

/-- C8: for both variants, whenever the environment resolves,
`getAuthorizationTokenV2` hands the token source a client-credentials
configuration whose Scopes list is exactly the endpoint with trailing slashes
stripped and "/.default" appended; in particular the endpoint
"https://management.azure.com/" yields the scope
"https://management.azure.com/.default". -/
theorem C8_v2_scope :
    (∀ (ext : HamiltonExt) (a : servicePrincipalClientSecretAuth) (s : Sender)
        (o : OAuthConfig) (endpoint : String) (env : Environment),
      ext.environmentFromString a.environment = .ok env →
      ∃ conf : ClientCredentialsConfig,
        conf.Scopes = [specScope endpoint] ∧
        a.getAuthorizationTokenV2 ext s o endpoint =
          match ext.asAutorestAuthorizer
              (ext.tokenSource conf (a.ctx.getD .background) .clientCredentialsSecretType) with
          | some authTyped => .ok authTyped
          | none => .error "returned auth.Authorizer does not implement autorest.Authorizer") ∧
    (∀ (ext : HamiltonExt) (a : servicePrincipalClientSecretMultiTenantAuth) (s : Sender)
        (o : OAuthConfig) (endpoint : String) (env : Environment),
      ext.environmentFromString a.environment = .ok env →
      ∃ conf : ClientCredentialsConfig,
        conf.Scopes = [specScope endpoint] ∧
        a.getAuthorizationTokenV2 ext s o endpoint =
          match ext.asAutorestAuthorizer
              (ext.tokenSource conf (a.ctx.getD .background) .clientCredentialsSecretType) with
          | some authTyped => .ok authTyped
          | none => .error "returned auth.Authorizer does not implement autorest.Authorizer") ∧
    specScope "https://management.azure.com/" = "https://management.azure.com/.default" := by
  refine ⟨?_, ?_, by rfl⟩
  · intro ext a s o endpoint env h
    refine ⟨v2Conf env a.tenantId a.clientId a.clientSecret endpoint, ?_, ?_⟩
    · show [goTrimRight endpoint "/" ++ "/.default"] = [specScope endpoint]
      rw [goTrimRight_slash]
    · unfold servicePrincipalClientSecretAuth.getAuthorizationTokenV2
      rw [h]
      rfl
  · intro ext a s o endpoint env h
    refine ⟨v2Conf env a.tenantId a.clientId a.clientSecret endpoint, ?_, ?_⟩
    · show [goTrimRight endpoint "/" ++ "/.default"] = [specScope endpoint]
      rw [goTrimRight_slash]
    · unfold servicePrincipalClientSecretMultiTenantAuth.getAuthorizationTokenV2
      rw [h]
      rfl

/-- C8 witness: the single-tenant variant at a concrete external-library
behaviour, instance and the endpoint "https://management.azure.com/". -/
theorem C8_witness :
    ∃ conf : ClientCredentialsConfig,
      conf.Scopes = [specScope "https://management.azure.com/"] ∧
      servicePrincipalClientSecretAuth.getAuthorizationTokenV2 hamiltonExtW
          ⟨none, "cid", "sec", "public", "sub", "tid", false⟩ ⟨0⟩ ⟨none, none⟩
          "https://management.azure.com/" =
        match hamiltonExtW.asAutorestAuthorizer
            (hamiltonExtW.tokenSource conf
              ((⟨none, "cid", "sec", "public", "sub", "tid", false⟩ :
                servicePrincipalClientSecretAuth).ctx.getD .background)
              .clientCredentialsSecretType) with
        | some authTyped => .ok authTyped
        | none => .error "returned auth.Authorizer does not implement autorest.Authorizer" :=
  C8_v2_scope.1 hamiltonExtW ⟨none, "cid", "sec", "public", "sub", "tid", false⟩ ⟨0⟩
    ⟨none, none⟩ "https://management.azure.com/" ⟨"public"⟩ rfl
